import Mathlib

/-!
Shallow embedding of the probe-request decode pipeline of the
EspWifiProbeSniffer repository (src/src/main.cpp together with
src/include/wifi_probe_monitor.h).

Frames and payloads are lists of byte values (each a Nat, below 256 in any
real input).  The bit-level operations of the source (masks, shifts) are
written explicitly on Nat.  The capture record is modelled by the fields the
parsing core actually computes; collaborator-supplied metadata that the core
merely copies through (packet id, timestamps, radio echo, rssi echo, the
frame_raw_hex preview) carries no parsing logic and is omitted.
-/

set_option maxRecDepth 8000
set_option maxHeartbeats 1000000

/-- MAX_IES from wifi_probe_monitor.h (capacity of the raw IE catalogue). -/
def MAX_IES : Nat := 15

/-- MAX_VENDOR_IES from wifi_probe_monitor.h. -/
def MAX_VENDOR_IES : Nat := 3

/-- WIFI_FRAME_TYPE_MANAGEMENT from wifi_probe_monitor.h. -/
def WIFI_FRAME_TYPE_MANAGEMENT : Nat := 0x00

/-- WIFI_FRAME_SUBTYPE_PROBE_REQ from wifi_probe_monitor.h. -/
def WIFI_FRAME_SUBTYPE_PROBE_REQ : Nat := 0x04

/-- IE_SSID tag. -/
def IE_SSID : Nat := 0

/-- IE_SUPPORTED_RATES tag. -/
def IE_SUPPORTED_RATES : Nat := 1

/-- IE_EXTENDED_RATES tag. -/
def IE_EXTENDED_RATES : Nat := 50

/-- IE_HT_CAPABILITIES tag. -/
def IE_HT_CAPABILITIES : Nat := 45

/-- IE_VHT_CAPABILITIES tag. -/
def IE_VHT_CAPABILITIES : Nat := 191

/-- IE_HE_CAPABILITIES tag, defined in wifi_probe_monitor.h.  The switch in
extract_information_elements has no case for it. -/
def IE_HE_CAPABILITIES : Nat := 255

/-- IE_VENDOR_SPECIFIC tag. -/
def IE_VENDOR_SPECIFIC : Nat := 221

/-- sizeof(wifi_ieee80211_mac_hdr_t) on the 32-bit little-endian target:
the two leading 16-bit bitfields share one 4-byte unit (bytes 0-3), addr1,
addr2, addr3 occupy bytes 4-21, the sequence_ctrl bitfield occupies bytes
22-23 inside the 4-aligned unit, addr4 occupies bytes 24-29, and the struct
is padded to its 4-byte alignment.  parse_probe_request uses this value both
as the minimum frame length and as the payload offset. -/
def macHeaderSize : Nat := 32

/-- information_element_t: one entry of the raw IE catalogue.  In the source
the value storage is a fixed uint8_t[64] array and len is the declared
element length as stored by extract_information_elements; value here holds
exactly the bytes that the memcpy wrote. -/
structure information_element_t where
  id : Nat
  len : Nat
  value : List Nat
deriving Repr, DecidableEq

/-- vendor_ie_t (the constant meaning string is omitted). -/
structure vendor_ie_t where
  oui : List Nat
  vendor_type : Nat
  payload : List Nat
deriving Repr, DecidableEq

/-- ht_capabilities_t. -/
structure ht_capabilities_t where
  present : Bool
  mcs_set : String
deriving Repr, DecidableEq

/-- capabilities_info_t; the uint8 count fields of the source are the list
lengths here. -/
structure capabilities_info_t where
  supported_rates : List Nat
  extended_rates : List Nat
  ht_capabilities : ht_capabilities_t
  vht_capabilities : Bool
  he_capabilities : Bool
deriving Repr, DecidableEq

/-- probe_info_t; the ssid String of the source is kept as its byte list. -/
structure probe_info_t where
  ssid : List Nat
  ssid_hidden : Bool
deriving Repr, DecidableEq

/-- ieee80211_info_t (the constant type and subtype strings are omitted). -/
structure ieee80211_info_t where
  da : List Nat
  sa : List Nat
  bssid : List Nat
  duration : Nat
  seq_ctrl : Nat
deriving Repr, DecidableEq

/-- fingerprint_t; confidence is the constant 0.65 in the source and is
omitted (floating point, never computed from the input). -/
structure fingerprint_t where
  ie_signature : String
deriving Repr, DecidableEq

/-- packet_data_t, restricted to the fields the decode pipeline computes. -/
structure packet_data_t where
  ieee80211 : ieee80211_info_t
  probe : probe_info_t
  capabilities : capabilities_info_t
  vendor_ies : List vendor_ie_t
  ies_raw : List information_element_t
  mac_randomized : Bool
  oui : String
  vendor_inferred : String
  fingerprint : fingerprint_t
deriving Repr, DecidableEq

/-- Read n consecutive bytes starting at index start, each read defaulting to
0 out of range (the in-bounds uses below are all guarded as in the source). -/
def readBytes (payload : List Nat) : Nat → Nat → List Nat
  | _, 0 => []
  | start, n + 1 => payload.getD start 0 :: readBytes payload (start + 1) n

/-- Little-endian 16-bit word at byte offset i. -/
def le16 (frame : List Nat) (i : Nat) : Nat :=
  frame.getD i 0 + 256 * frame.getD (i + 1) 0

/-- The 16-bit frame-control word (bytes 0 and 1 of the MAC header). -/
def frame_ctrl (frame : List Nat) : Nat := le16 frame 0

/-- (hdr->frame_ctrl & 0x0C) >> 2 : the 2-bit type field. -/
def frame_type (frame : List Nat) : Nat := (frame_ctrl frame &&& 0x0C) >>> 2

/-- (hdr->frame_ctrl & 0xF0) >> 4 : the 4-bit subtype field. -/
def frame_subtype (frame : List Nat) : Nat := (frame_ctrl frame &&& 0xF0) >>> 4

/-- Lower-case hexadecimal digit. -/
def hexDigitLower (n : Nat) : Char :=
  Char.ofNat (if n < 10 then 48 + n else 87 + n)

/-- Upper-case hexadecimal digit. -/
def hexDigitUpper (n : Nat) : Char :=
  Char.ofNat (if n < 10 then 48 + n else 55 + n)

/-- sprintf "%02x" of a byte. -/
def byteHexLower (b : Nat) : String :=
  String.mk [hexDigitLower (b / 16 % 16), hexDigitLower (b % 16)]

/-- sprintf "%02X" of a byte. -/
def byteHexUpper (b : Nat) : String :=
  String.mk [hexDigitUpper (b / 16 % 16), hexDigitUpper (b % 16)]

/-- sprintf "%02x:%02x:%02x" of a 3-byte OUI, as used by create_fingerprint
and print_capture_data for vendor elements. -/
def oui_hex_lower (oui : List Nat) : String :=
  byteHexLower (oui.getD 0 0) ++ ":" ++ byteHexLower (oui.getD 1 0) ++ ":" ++
    byteHexLower (oui.getD 2 0)

/-- mac_to_string(mac).substring(0, 8): the lower-case OUI prefix stored in
the oui field of the record. -/
def mac_oui_lower (mac : List Nat) : String :=
  byteHexLower (mac.getD 0 0) ++ ":" ++ byteHexLower (mac.getD 1 0) ++ ":" ++
    byteHexLower (mac.getD 2 0)

/-- The static known_vendors table of main.cpp (the NULL terminator of the C
array is the end of the list). -/
def known_vendors : List (String × String) :=
  [("00:16:01", "Android"),
   ("00:1B:63", "Apple"),
   ("00:23:12", "Apple"),
   ("00:25:00", "Apple"),
   ("28:E0:2C", "Apple"),
   ("3C:15:C2", "Apple"),
   ("40:A6:D9", "Apple"),
   ("64:20:9F", "Apple"),
   ("68:96:7B", "Apple"),
   ("70:56:81", "Apple"),
   ("7C:6D:62", "Apple"),
   ("88:63:DF", "Apple"),
   ("90:B0:ED", "Apple"),
   ("A4:5E:60", "Apple"),
   ("AC:BC:32", "Apple"),
   ("BC:52:B7", "Apple"),
   ("D0:A6:37", "Apple"),
   ("E8:8D:28", "Apple"),
   ("F0:98:9D", "Apple"),
   ("F4:0F:24", "Apple"),
   ("F8:1E:DF", "Apple"),
   ("18:3A:2D", "Samsung"),
   ("1C:62:B8", "Samsung"),
   ("34:23:87", "Samsung"),
   ("38:AA:3C", "Samsung"),
   ("40:4E:36", "Samsung"),
   ("5C:0A:5B", "Samsung"),
   ("78:1F:DB", "Samsung"),
   ("8C:45:00", "Samsung"),
   ("A0:02:DC", "Samsung"),
   ("C8:19:F7", "Samsung"),
   ("E8:50:8B", "Samsung")]

/-- is_randomized_mac: (mac[0] & 0x02) != 0. -/
def is_randomized_mac (mac : List Nat) : Bool :=
  (mac.getD 0 0) &&& 0x02 != 0

/-- get_vendor_from_mac: format the first three octets as an upper-case
colon-separated OUI string, return the first matching table entry, else the
Unknown sentinel. -/
def get_vendor_from_mac (mac : List Nat) : String :=
  let oui := byteHexUpper (mac.getD 0 0) ++ ":" ++ byteHexUpper (mac.getD 1 0)
      ++ ":" ++ byteHexUpper (mac.getD 2 0)
  match known_vendors.find? (fun kv => kv.1 == oui) with
  | some kv => kv.2
  | none => "Unknown"

/-- One iteration body of the IE loop of extract_information_elements: store
the raw IE (value truncated to the 64-byte storage, declared length stored
unchanged), then dispatch on the tag exactly as the switch does. -/
def ie_step (payload : List Nat) (offset : Nat) (element_id : Nat)
    (element_length : Nat) (packet : packet_data_t) : packet_data_t :=
  let copy_len := if element_length > 64 then 64 else element_length
  let packet1 := { packet with
    ies_raw := packet.ies_raw ++
      [{ id := element_id, len := element_length,
         value := readBytes payload (offset + 2) copy_len }] }
  if element_id = IE_SSID then
    if 0 < element_length ∧ element_length ≤ 32 then
      { packet1 with probe := { packet1.probe with
          ssid := (readBytes payload (offset + 2) element_length).filter
            (fun c => 32 ≤ c && c ≤ 126) } }
    else
      { packet1 with probe := { packet1.probe with
          ssid := [], ssid_hidden := false } }
  else if element_id = IE_SUPPORTED_RATES then
    if element_length ≤ 16 then
      { packet1 with capabilities := { packet1.capabilities with
          supported_rates := (readBytes payload (offset + 2) element_length).foldl
            (fun rates b => if rates.length < 16 then rates ++ [b &&& 0x7F] else rates)
            packet1.capabilities.supported_rates } }
    else packet1
  else if element_id = IE_EXTENDED_RATES then
    if element_length ≤ 16 then
      { packet1 with capabilities := { packet1.capabilities with
          extended_rates := (readBytes payload (offset + 2) element_length).foldl
            (fun rates b => if rates.length < 16 then rates ++ [b &&& 0x7F] else rates)
            packet1.capabilities.extended_rates } }
    else packet1
  else if element_id = IE_HT_CAPABILITIES then
    if 26 ≤ element_length then
      { packet1 with capabilities := { packet1.capabilities with
          ht_capabilities := { present := true, mcs_set := "0-7" } } }
    else packet1
  else if element_id = IE_VHT_CAPABILITIES then
    if 12 ≤ element_length then
      { packet1 with capabilities := { packet1.capabilities with
          vht_capabilities := true } }
    else packet1
  else if element_id = IE_VENDOR_SPECIFIC then
    if 3 ≤ element_length ∧ packet1.vendor_ies.length < MAX_VENDOR_IES then
      let payload_len0 := if element_length > 4 then element_length - 4 else 0
      let payload_len := if payload_len0 > 64 then 64 else payload_len0
      { packet1 with vendor_ies := packet1.vendor_ies ++
          [{ oui := readBytes payload (offset + 2) 3,
             vendor_type := if element_length > 3 then payload.getD (offset + 5) 0 else 0,
             payload := readBytes payload (offset + 6) payload_len }] }
    else packet1
  else packet1

/-- The while loop of extract_information_elements.  The loop advances the
cursor by at least 2 each iteration, so a fuel of payload.length (what
extract_information_elements passes) can never run out before the loop
condition fails; ie_loop_fuel_ext below proves the fuel is irrelevant from
that point on. -/
def ie_loop : Nat → List Nat → Nat → packet_data_t → packet_data_t
  | 0, _, _, packet => packet
  | fuel + 1, payload, offset, packet =>
    if offset + 2 < payload.length ∧ packet.ies_raw.length < MAX_IES then
      let element_id := payload.getD offset 0
      let element_length := payload.getD (offset + 1) 0
      if offset + 2 + element_length > payload.length then packet
      else ie_loop fuel payload (offset + 2 + element_length)
        (ie_step payload offset element_id element_length packet)
    else packet

/-- extract_information_elements: reset the decoded fields, skip the 12
fixed bytes (timestamp, beacon interval, capability info), then run the IE
loop. -/
def extract_information_elements (payload : List Nat) (packet : packet_data_t) :
    packet_data_t :=
  let packet := { packet with
    probe := { ssid := [], ssid_hidden := false },
    capabilities := { supported_rates := [], extended_rates := [],
                      ht_capabilities := { present := false,
                                           mcs_set := packet.capabilities.ht_capabilities.mcs_set },
                      vht_capabilities := false, he_capabilities := false },
    vendor_ies := [],
    ies_raw := [] }
  ie_loop payload.length payload 12 packet

/-- create_fingerprint: HT marker, then one VENDOR(oui)+ segment per vendor
element, then the comma-joined decimal rates segment. -/
def create_fingerprint (packet : packet_data_t) : String :=
  let s1 := if packet.capabilities.ht_capabilities.present then "HT+" else ""
  let s2 := String.join (packet.vendor_ies.map
    (fun v => "VENDOR(" ++ oui_hex_lower v.oui ++ ")+"))
  let s3 := if 0 < packet.capabilities.supported_rates.length then
      "rates(" ++ String.intercalate ","
        (packet.capabilities.supported_rates.map (fun r => Nat.repr r)) ++ ")"
    else ""
  s1 ++ s2 ++ s3

/-- The all-zero packet produced by the memset in parse_probe_request. -/
def initPacket : packet_data_t :=
  { ieee80211 := { da := List.replicate 6 0, sa := List.replicate 6 0,
                   bssid := List.replicate 6 0, duration := 0, seq_ctrl := 0 },
    probe := { ssid := [], ssid_hidden := false },
    capabilities := { supported_rates := [], extended_rates := [],
                      ht_capabilities := { present := false, mcs_set := "" },
                      vht_capabilities := false, he_capabilities := false },
    vendor_ies := [],
    ies_raw := [],
    mac_randomized := false,
    oui := "",
    vendor_inferred := "",
    fingerprint := { ie_signature := "" } }

/-- parse_probe_request: reject frames shorter than the MAC header, decode
the header fields, run the IE extraction on the payload when one is present,
then attach the fingerprint. -/
def parse_probe_request (frame : List Nat) : Option packet_data_t :=
  if frame.length < macHeaderSize then none
  else
    let sa := readBytes frame 10 6
    let packet := { initPacket with
      ieee80211 := { da := readBytes frame 4 6, sa := sa,
                     bssid := readBytes frame 16 6,
                     duration := le16 frame 2,
                     seq_ctrl := (le16 frame 22 &&& 0xFFF0) >>> 4 },
      mac_randomized := is_randomized_mac sa,
      oui := mac_oui_lower sa,
      vendor_inferred := get_vendor_from_mac sa }
    let packet := if macHeaderSize < frame.length then
        extract_information_elements (frame.drop macHeaderSize) packet
      else packet
    some { packet with fingerprint := { ie_signature := create_fingerprint packet } }

/-- The classification step of wifi_promiscuous_rx: a record is produced
only for management-type (0), probe-request-subtype (4) frames.  The heap
threshold and the 10 ms rate limiter of the callback are environment-side
admission control, not part of the decode core. -/
def wifi_promiscuous_rx (frame : List Nat) : Option packet_data_t :=
  if frame_type frame = WIFI_FRAME_TYPE_MANAGEMENT ∧
      frame_subtype frame = WIFI_FRAME_SUBTYPE_PROBE_REQ then
    parse_probe_request frame
  else none

/-- Render a decoded SSID byte list back as the String the source holds. -/
def ssidString (l : List Nat) : String := String.mk (l.map Char.ofNat)

/-- The indices read by the value_hex rendering loop of print_capture_data
(j ranging over 0 .. len-1, reading value[j]) all fall inside the 64-byte
value storage of information_element_t. -/
def value_hex_reads_in_bounds (ie : information_element_t) : Prop :=
  ∀ j, j < ie.len → j < 64

instance (ie : information_element_t) : Decidable (value_hex_reads_in_bounds ie) :=
  decidable_of_iff (ie.len ≤ 64) (by
    unfold value_hex_reads_in_bounds
    constructor
    · intro h j hj
      omega
    · intro h
      by_contra hc
      push_neg at hc
      have := h 64 (by omega)
      omega)

/-! Concrete frames and expected records used by the claim theorems.  Every
frame starts with frame-control byte 0x40 (type bits [3:2] = 0, subtype bits
[7:4] = 4), followed by the rest of the 32-byte header region, the 12 fixed
probe-request bytes, and then information elements. -/

/-- A frame whose single IE declares length 65: payload longer than the
64-byte raw-IE value storage. -/
def frameC1 : List Nat :=
  [0x40, 0] ++ List.replicate 30 0 ++ List.replicate 12 0 ++ [5, 65] ++
    List.replicate 65 7

/-- A frame carrying IE (0, 4, "Test"). -/
def frame_ssid_test : List Nat :=
  [0x40, 0] ++ List.replicate 30 0 ++ List.replicate 12 0 ++
    [0, 4, 84, 101, 115, 116]

/-- A frame carrying a zero-length SSID element (one trailing byte keeps the
element inside the loop window). -/
def frame_ssid_empty : List Nat :=
  [0x40, 0] ++ List.replicate 30 0 ++ List.replicate 12 0 ++ [0, 0, 255]

/-- A frame with a supported-rates element declaring 17 rates
(0x81 .. 0x91). -/
def frameC4 : List Nat :=
  [0x40, 0] ++ List.replicate 30 0 ++ List.replicate 12 0 ++ [1, 17] ++
    (List.range 17).map (fun i => 129 + i)

/-- A frame carrying an element with the IE_HE_CAPABILITIES tag (255) and 26
value bytes. -/
def frameC8 : List Nat :=
  [0x40, 0] ++ List.replicate 30 0 ++ List.replicate 12 0 ++ [255, 26] ++
    List.replicate 26 1

/-- Source address 02:02:02:02:02:02 (randomized), SSID "AB", rates
element (0x82, 0x84). -/
def frame6a : List Nat :=
  [0x40, 0, 0, 0] ++ List.replicate 6 0 ++ [2, 2, 2, 2, 2, 2] ++
    List.replicate 16 0 ++ List.replicate 12 0 ++ [0, 2, 65, 66] ++
    [1, 2, 0x82, 0x84]

/-- Source address 00:1B:63:01:02:03 (an Apple OUI), SSID "ZZZZ", the same
rates element as frame6a. -/
def frame6b : List Nat :=
  [0x40, 0, 0, 0] ++ List.replicate 6 0 ++ [0, 0x1B, 0x63, 1, 2, 3] ++
    List.replicate 16 0 ++ List.replicate 12 0 ++ [0, 4, 90, 90, 90, 90] ++
    [1, 2, 0x82, 0x84]

/-- The record decoded from frame6a. -/
def rec6a : packet_data_t :=
  { ieee80211 := { da := [0, 0, 0, 0, 0, 0], sa := [2, 2, 2, 2, 2, 2],
                   bssid := [0, 0, 0, 0, 0, 0], duration := 0, seq_ctrl := 0 },
    probe := { ssid := [65, 66], ssid_hidden := false },
    capabilities := { supported_rates := [2, 4], extended_rates := [],
                      ht_capabilities := { present := false, mcs_set := "" },
                      vht_capabilities := false, he_capabilities := false },
    vendor_ies := [],
    ies_raw := [{ id := 0, len := 2, value := [65, 66] },
                { id := 1, len := 2, value := [130, 132] }],
    mac_randomized := true,
    oui := "02:02:02",
    vendor_inferred := "Unknown",
    fingerprint := { ie_signature := "rates(2,4)" } }

/-- The record decoded from frame6b. -/
def rec6b : packet_data_t :=
  { ieee80211 := { da := [0, 0, 0, 0, 0, 0], sa := [0, 27, 99, 1, 2, 3],
                   bssid := [0, 0, 0, 0, 0, 0], duration := 0, seq_ctrl := 0 },
    probe := { ssid := [90, 90, 90, 90], ssid_hidden := false },
    capabilities := { supported_rates := [2, 4], extended_rates := [],
                      ht_capabilities := { present := false, mcs_set := "" },
                      vht_capabilities := false, he_capabilities := false },
    vendor_ies := [],
    ies_raw := [{ id := 0, len := 4, value := [90, 90, 90, 90] },
                { id := 1, len := 2, value := [130, 132] }],
    mac_randomized := false,
    oui := "00:1b:63",
    vendor_inferred := "Apple",
    fingerprint := { ie_signature := "rates(2,4)" } }

/-- A header-only frame (no payload at all). -/
def frame10 : List Nat := [0x40, 0] ++ List.replicate 30 0

/-- The record decoded from frame10. -/
def rec10 : packet_data_t :=
  { initPacket with oui := "00:00:00", vendor_inferred := "Unknown" }

/-- A 14-byte payload whose final two bytes are the tag and length of a
declared-length-0 element. -/
def payloadC5 : List Nat := List.replicate 12 0 ++ [5, 0]

/-- A payload whose element at offset 12 declares length 200, overrunning
the remaining payload. -/
def payloadC3w : List Nat := List.replicate 12 0 ++ [7, 200, 0]

/-- The fingerprint as a function of exactly the three capability inputs it
is built from. -/
def fingerprint_parts (ht : Bool) (ouis : List (List Nat)) (rates : List Nat) :
    String :=
  (if ht then "HT+" else "") ++
    String.join (ouis.map (fun o => "VENDOR(" ++ oui_hex_lower o ++ ")+")) ++
    (if 0 < rates.length then
       "rates(" ++ String.intercalate "," (rates.map (fun r => Nat.repr r)) ++ ")"
     else "")

/-! Helper lemmas. -/

/-- A guarded sequence of byte reads equals the corresponding slice of the
payload. -/
theorem readBytes_eq_drop_take (payload : List Nat) :
    ∀ n start, start + n ≤ payload.length →
      readBytes payload start n = (payload.drop start).take n := by
  intro n
  induction n with
  | zero =>
    intro start h
    simp [readBytes]
  | succ m ih =>
    intro start h
    have hs : start < payload.length := by omega
    rw [readBytes, List.drop_eq_getElem_cons hs, List.take_succ_cons,
      ih (start + 1) (by omega), List.getD_eq_getElem payload 0 hs]

/-- The capacity-guarded rate-append loop equals appending the masked rates
up to the remaining capacity. -/
theorem rates_foldl_eq (v : List Nat) :
    ∀ acc : List Nat,
      v.foldl (fun rates b => if rates.length < 16 then rates ++ [b &&& 0x7F] else rates) acc
        = acc ++ (v.map (fun b => b &&& 0x7F)).take (16 - acc.length) := by
  induction v with
  | nil =>
    intro acc
    simp
  | cons b v ih =>
    intro acc
    by_cases hlen : acc.length < 16
    · rw [List.foldl_cons, if_pos hlen, ih (acc ++ [b &&& 0x7F])]
      have h16 : 16 - acc.length = (16 - (acc ++ [b &&& 0x7F]).length) + 1 := by
        simp only [List.length_append, List.length_cons, List.length_nil]
        omega
      rw [List.map_cons, h16, List.take_succ_cons, List.append_assoc,
        List.singleton_append]
    · rw [List.foldl_cons, if_neg hlen, ih acc]
      have h16 : 16 - acc.length = 0 := by omega
      rw [h16, List.take_zero, List.take_zero]

/-- Every dispatch branch of ie_step leaves a false ssid_hidden flag
false. -/
theorem ie_step_ssid_hidden (payload : List Nat) (offset element_id element_length : Nat)
    (packet : packet_data_t) (h : packet.probe.ssid_hidden = false) :
    (ie_step payload offset element_id element_length packet).probe.ssid_hidden = false := by
  simp only [ie_step]
  split_ifs <;> first | exact h | rfl

/-- The IE loop leaves a false ssid_hidden flag false. -/
theorem ie_loop_ssid_hidden :
    ∀ (fuel : Nat) (payload : List Nat) (offset : Nat) (packet : packet_data_t),
      packet.probe.ssid_hidden = false →
      (ie_loop fuel payload offset packet).probe.ssid_hidden = false := by
  intro fuel
  induction fuel with
  | zero =>
    intro payload offset packet h
    exact h
  | succ n ih =>
    intro payload offset packet h
    simp only [ie_loop]
    split_ifs with h1 h2
    · exact h
    · exact ih payload _ _ (ie_step_ssid_hidden payload offset _ _ packet h)
    · exact h

/-- extract_information_elements always yields a false ssid_hidden flag. -/
theorem extract_ssid_hidden (payload : List Nat) (packet : packet_data_t) :
    (extract_information_elements payload packet).probe.ssid_hidden = false := by
  unfold extract_information_elements
  exact ie_loop_ssid_hidden _ _ _ _ rfl

/-- Fuel beyond what the loop bound requires does not change ie_loop; with
fuel payload.length (what extract_information_elements passes) the loop
always stops because its condition fails, never because fuel runs out. -/
theorem ie_loop_fuel_ext :
    ∀ (fuel more : Nat) (payload : List Nat) (offset : Nat) (packet : packet_data_t),
      payload.length ≤ offset + 2 * fuel + 2 →
      ie_loop (fuel + more) payload offset packet = ie_loop fuel payload offset packet := by
  intro fuel
  induction fuel with
  | zero =>
    intro more payload offset packet h
    cases more with
    | zero => rfl
    | succ m =>
      simp only [Nat.zero_add, ie_loop]
      rw [if_neg (fun hc => absurd hc.1 (by omega))]
  | succ n ih =>
    intro more payload offset packet h
    have hstep : n + 1 + more = (n + more) + 1 := by omega
    rw [hstep]
    simp only [ie_loop]
    split_ifs with h1 h2
    · rfl
    · apply ih
      omega
    · rfl

/-- create_fingerprint factors through the three capability inputs. -/
theorem create_fingerprint_eq_parts (packet : packet_data_t) :
    create_fingerprint packet =
      fingerprint_parts packet.capabilities.ht_capabilities.present
        (packet.vendor_ies.map vendor_ie_t.oui)
        packet.capabilities.supported_rates := by
  simp only [create_fingerprint, fingerprint_parts, List.map_map]
  rfl

/-! Claim theorems. -/

/-- C2: a capture record is produced exactly when the buffer is at least the
fixed MAC-header size, the 2-bit type field (bits [3:2] of the little-endian
frame-control word) is 0 (management) and the 4-bit subtype field (bits
[7:4]) is 4 (probe request); every other frame is silently rejected with no
record and no error. -/
theorem record_produced_iff_probe_request (frame : List Nat) :
    (wifi_promiscuous_rx frame).isSome = true ↔
      macHeaderSize ≤ frame.length ∧
        frame_type frame = WIFI_FRAME_TYPE_MANAGEMENT ∧
        frame_subtype frame = WIFI_FRAME_SUBTYPE_PROBE_REQ := by
  unfold wifi_promiscuous_rx parse_probe_request
  split_ifs with h1 h2 <;> simp_all

/-- C3: when the element at the cursor declares a length that would read
past the end of the payload, the IE loop stops at that element and returns
the accumulated packet unchanged: every element decoded before it is kept
and no error is raised. -/
theorem ie_parse_stops_at_overrun (fuel : Nat) (payload : List Nat)
    (offset : Nat) (packet : packet_data_t)
    (h : payload.length < offset + 2 + payload.getD (offset + 1) 0) :
    ie_loop fuel payload offset packet = packet := by
  cases fuel with
  | zero => rfl
  | succ n =>
    simp only [ie_loop]
    split_ifs <;> rfl

/-- Witness for C3: a concrete payload whose element at offset 12 declares
length 200. -/
theorem ie_parse_stops_at_overrun_witness :
    ie_loop 5 payloadC3w 12 initPacket = initPacket :=
  ie_parse_stops_at_overrun 5 payloadC3w 12 initPacket (by decide)

/-- C5 counterexample: an element whose tag byte and length byte are exactly
the last 2 bytes of the payload is not read: the raw IE catalogue stays
empty and does not contain the element. -/
theorem last_two_byte_element_not_recorded :
    (extract_information_elements payloadC5 initPacket).ies_raw = [] ∧
      ({ id := 5, len := 0, value := [] } : information_element_t) ∉
        (extract_information_elements payloadC5 initPacket).ies_raw := by
  exact ⟨by decide, by decide⟩

/-- C5 (amended): the IE loop only continues while strictly more than 2
bytes remain; once at most 2 bytes are left (so in particular for an
element whose tag and length bytes are the last 2 bytes of the payload) it
stops and returns the accumulated packet unchanged, recording nothing. -/
theorem ie_loop_stops_below_three_bytes (fuel : Nat) (payload : List Nat)
    (offset : Nat) (packet : packet_data_t)
    (h : payload.length ≤ offset + 2) :
    ie_loop fuel payload offset packet = packet := by
  cases fuel with
  | zero => rfl
  | succ n =>
    simp only [ie_loop]
    rw [if_neg (fun hc => absurd hc.1 (by omega))]

/-- Witness for the amended C5 at the concrete 14-byte payload. -/
theorem ie_loop_stops_below_three_bytes_witness :
    ie_loop 14 payloadC5 12 initPacket = initPacket :=
  ie_loop_stops_below_three_bytes 14 payloadC5 12 initPacket (by decide)

/-- C10: every record the pipeline produces carries ssid_hidden = false; no
input whatsoever sets the flag. -/
theorem ssid_hidden_always_false (frame : List Nat) (packet : packet_data_t)
    (h : wifi_promiscuous_rx frame = some packet) :
    packet.probe.ssid_hidden = false := by
  unfold wifi_promiscuous_rx at h
  split_ifs at h with hcls
  simp only [parse_probe_request] at h
  split_ifs at h with hlen hp
  · rw [Option.some.injEq] at h
    subst h
    exact extract_ssid_hidden _ _
  · rw [Option.some.injEq] at h
    subst h
    rfl

/-- Witness for C10 at a header-only frame. -/
theorem ssid_hidden_always_false_witness : rec10.probe.ssid_hidden = false :=
  ssid_hidden_always_false frame10 rec10 (by decide)

/-- C4 counterexample: a supported-rates element declaring 17 rates is
skipped as a whole — the decoded rate list is empty rather than the first
16 masked rates. -/
theorem rates_seventeen_element_skipped_whole :
    ((wifi_promiscuous_rx frameC4).map (fun r => r.capabilities.supported_rates))
        = some [] ∧
      ((wifi_promiscuous_rx frameC4).map (fun r => r.capabilities.supported_rates))
        ≠ some (((List.range 17).map (fun i => (129 + i) &&& 0x7F)).take 16) :=
  ⟨by decide, by decide⟩

/-- C4 (amended): a rates element (tag 1 or tag 50) with declared length at
most 16 appends its bytes in order with the high 0x80 bit masked off, up to
the total list capacity of 16 (bytes beyond the remaining capacity are
silently dropped); an element declaring more than 16 rates is skipped as a
whole and contributes no rates. -/
theorem rates_copy_amended (payload : List Nat) (offset L : Nat)
    (packet : packet_data_t) (hin : offset + 2 + L ≤ payload.length) :
    (L ≤ 16 →
      (ie_step payload offset IE_SUPPORTED_RATES L packet).capabilities.supported_rates
        = packet.capabilities.supported_rates ++
          (((payload.drop (offset + 2)).take L).map (fun b => b &&& 0x7F)).take
            (16 - packet.capabilities.supported_rates.length)) ∧
    (16 < L →
      (ie_step payload offset IE_SUPPORTED_RATES L packet).capabilities.supported_rates
        = packet.capabilities.supported_rates) ∧
    (L ≤ 16 →
      (ie_step payload offset IE_EXTENDED_RATES L packet).capabilities.extended_rates
        = packet.capabilities.extended_rates ++
          (((payload.drop (offset + 2)).take L).map (fun b => b &&& 0x7F)).take
            (16 - packet.capabilities.extended_rates.length)) ∧
    (16 < L →
      (ie_step payload offset IE_EXTENDED_RATES L packet).capabilities.extended_rates
        = packet.capabilities.extended_rates) := by
  refine ⟨fun h16 => ?_, fun h16 => ?_, fun h16 => ?_, fun h16 => ?_⟩
  · unfold ie_step
    rw [if_neg (by decide : ¬ (IE_SUPPORTED_RATES = IE_SSID)),
      if_pos (rfl : IE_SUPPORTED_RATES = IE_SUPPORTED_RATES), if_pos h16,
      readBytes_eq_drop_take payload L (offset + 2) hin]
    exact rates_foldl_eq _ _
  · unfold ie_step
    rw [if_neg (by decide : ¬ (IE_SUPPORTED_RATES = IE_SSID)),
      if_pos (rfl : IE_SUPPORTED_RATES = IE_SUPPORTED_RATES),
      if_neg (show ¬ L ≤ 16 by omega)]
  · unfold ie_step
    rw [if_neg (by decide : ¬ (IE_EXTENDED_RATES = IE_SSID)),
      if_neg (by decide : ¬ (IE_EXTENDED_RATES = IE_SUPPORTED_RATES)),
      if_pos (rfl : IE_EXTENDED_RATES = IE_EXTENDED_RATES), if_pos h16,
      readBytes_eq_drop_take payload L (offset + 2) hin]
    exact rates_foldl_eq _ _
  · unfold ie_step
    rw [if_neg (by decide : ¬ (IE_EXTENDED_RATES = IE_SSID)),
      if_neg (by decide : ¬ (IE_EXTENDED_RATES = IE_SUPPORTED_RATES)),
      if_pos (rfl : IE_EXTENDED_RATES = IE_EXTENDED_RATES),
      if_neg (show ¬ L ≤ 16 by omega)]

/-- Witness for the amended C4 at a concrete rates element (0x82, 0x84). -/
theorem rates_copy_amended_witness :
    (ie_step (List.replicate 12 0 ++ [1, 2, 130, 132]) 12 IE_SUPPORTED_RATES 2
        initPacket).capabilities.supported_rates
      = initPacket.capabilities.supported_rates ++
        ((((List.replicate 12 0 ++ [1, 2, 130, 132]).drop (12 + 2)).take 2).map
            (fun b => b &&& 0x7F)).take
          (16 - initPacket.capabilities.supported_rates.length) :=
  (rates_copy_amended (List.replicate 12 0 ++ [1, 2, 130, 132]) 12 2 initPacket
    (by decide)).1 (by decide)

/-- C7: for an SSID element with declared length between 1 and 32 the
decoded ssid is the in-order subsequence of printable bytes (32..126) of
the element value, non-printable bytes skipped one by one; an SSID element
of declared length 0 yields the explicit empty ssid; the concrete frame
carrying IE (0, 4, "Test") decodes to ssid "Test" with ssid_hidden false;
a frame whose SSID element has length 0 still yields a record, with an
empty ssid. -/
theorem ssid_printable_filter (payload : List Nat) (offset L : Nat)
    (packet : packet_data_t) (hin : offset + 2 + L ≤ payload.length) :
    (0 < L → L ≤ 32 →
      (ie_step payload offset IE_SSID L packet).probe.ssid
        = ((payload.drop (offset + 2)).take L).filter (fun c => 32 ≤ c && c ≤ 126)) ∧
    ((ie_step payload offset IE_SSID 0 packet).probe.ssid = []) ∧
    ((wifi_promiscuous_rx frame_ssid_test).map
        (fun r => (ssidString r.probe.ssid, r.probe.ssid_hidden)) = some ("Test", false)) ∧
    ((wifi_promiscuous_rx frame_ssid_empty).map
        (fun r => ssidString r.probe.ssid) = some "") := by
  refine ⟨fun h0 h32 => ?_, ?_, ?_, ?_⟩
  · unfold ie_step
    rw [if_pos (rfl : IE_SSID = IE_SSID), if_pos (And.intro h0 h32),
      readBytes_eq_drop_take payload L (offset + 2) hin]
  · rfl
  · decide
  · decide

/-- Witness for C7 at a concrete SSID element whose value holds one
printable and one non-printable byte. -/
theorem ssid_printable_filter_witness :
    (ie_step [9, 9, 9, 9, 9, 9, 9, 9, 9, 9, 9, 9, 0, 2, 65, 200] 12 IE_SSID 2
        initPacket).probe.ssid
      = (([9, 9, 9, 9, 9, 9, 9, 9, 9, 9, 9, 9, 0, 2, 65, 200].drop (12 + 2)).take 2).filter
          (fun c => 32 ≤ c && c ≤ 126) :=
  (ssid_printable_filter [9, 9, 9, 9, 9, 9, 9, 9, 9, 9, 9, 9, 0, 2, 65, 200] 12 2
    initPacket (by decide)).1 (by decide) (by decide)

/-- C9: mac_randomized is set exactly when bit 1 (the 0x02 bit) of the
first address octet is set; an address whose first three octets are
00:1B:63 resolves to the Apple entry of the static table; an address whose
formatted upper-case OUI string matches no table entry resolves to the
Unknown sentinel. -/
theorem device_inference_bits_and_vendor (mac : List Nat) :
    (is_randomized_mac mac = true ↔ Nat.testBit (mac.getD 0 0) 1 = true) ∧
    (mac.getD 0 0 = 0x00 → mac.getD 1 0 = 0x1B → mac.getD 2 0 = 0x63 →
      get_vendor_from_mac mac = "Apple") ∧
    ((∀ kv ∈ known_vendors,
        kv.1 ≠ byteHexUpper (mac.getD 0 0) ++ ":" ++ byteHexUpper (mac.getD 1 0)
          ++ ":" ++ byteHexUpper (mac.getD 2 0)) →
      get_vendor_from_mac mac = "Unknown") := by
  refine ⟨?_, ?_, ?_⟩
  · simp only [is_randomized_mac, bne_iff_ne, ne_eq]
    rw [show (2 : Nat) = 2 ^ 1 from rfl, Nat.and_two_pow]
    cases hbit : Nat.testBit (mac.getD 0 0) 1 <;> simp [hbit]
  · intro h0 h1 h2
    simp only [get_vendor_from_mac, h0, h1, h2]
    decide
  · intro hall
    have hnone : known_vendors.find?
        (fun kv => kv.1 == byteHexUpper (mac.getD 0 0) ++ ":" ++ byteHexUpper (mac.getD 1 0)
          ++ ":" ++ byteHexUpper (mac.getD 2 0)) = none := by
      rw [List.find?_eq_none]
      intro kv hkv
      simp only [beq_iff_eq]
      exact hall kv hkv
    simp only [get_vendor_from_mac, hnone]

/-- Witness for C9: a randomized first octet, an Apple OUI, and an OUI
absent from the table. -/
theorem device_inference_witness :
    is_randomized_mac [2, 0, 0, 0, 0, 0] = true ∧
      get_vendor_from_mac [0, 0x1B, 0x63, 9, 9, 9] = "Apple" ∧
      get_vendor_from_mac [9, 9, 9, 0, 0, 0] = "Unknown" :=
  ⟨(device_inference_bits_and_vendor [2, 0, 0, 0, 0, 0]).1.mpr (by decide),
   (device_inference_bits_and_vendor [0, 0x1B, 0x63, 9, 9, 9]).2.1 rfl rfl rfl,
   (device_inference_bits_and_vendor [9, 9, 9, 0, 0, 0]).2.2 (by decide)⟩

/-- C1: the value_hex rendering bound fails on the produced record for
frameC1: the raw-IE catalogue entry stores the declared length 65 while the
value storage holds only 64 bytes, so the rendering index range 0..64
leaves the 64-byte storage (index 64 is read out of bounds by
print_capture_data). -/
theorem value_hex_render_reads_out_of_bounds :
    ((wifi_promiscuous_rx frameC1).map (fun r => r.ies_raw))
        = some [{ id := 5, len := 65, value := List.replicate 64 7 }] ∧
      ¬ value_hex_reads_in_bounds { id := 5, len := 65, value := List.replicate 64 7 } :=
  ⟨by decide, by decide⟩

/-- C8: the dispatch switch has no case for the IE_HE_CAPABILITIES tag
(255), so an accepted frame carrying such an element still yields
he_capabilities = false — serialized as the null sentinel, never as the
present-true object the claim demands. -/
theorem he_capabilities_flag_never_set :
    ((wifi_promiscuous_rx frameC8).map
        (fun r => (r.capabilities.he_capabilities, r.ies_raw.map information_element_t.id)))
      = some (false, [255]) := by
  decide

/-- C6: two accepted frames that decode to the same supported-rate list,
the same HT-present flag and the same ordered vendor OUI list receive
byte-identical ie_signature fingerprints, whatever their source addresses
and whatever their SSIDs. -/
theorem fingerprint_depends_only_on_capabilities (f1 f2 : List Nat)
    (r1 r2 : packet_data_t)
    (h1 : wifi_promiscuous_rx f1 = some r1) (h2 : wifi_promiscuous_rx f2 = some r2)
    (hrates : r1.capabilities.supported_rates = r2.capabilities.supported_rates)
    (hht : r1.capabilities.ht_capabilities.present = r2.capabilities.ht_capabilities.present)
    (houi : r1.vendor_ies.map vendor_ie_t.oui = r2.vendor_ies.map vendor_ie_t.oui) :
    r1.fingerprint.ie_signature = r2.fingerprint.ie_signature := by
  have key : ∀ (f : List Nat) (r : packet_data_t), wifi_promiscuous_rx f = some r →
      r.fingerprint.ie_signature = create_fingerprint r := by
    intro f r h
    unfold wifi_promiscuous_rx at h
    split_ifs at h with hcls
    simp only [parse_probe_request] at h
    split_ifs at h with hlen hp
    · rw [Option.some.injEq] at h
      subst h
      rfl
    · rw [Option.some.injEq] at h
      subst h
      rfl
  rw [key f1 r1 h1, key f2 r2 h2, create_fingerprint_eq_parts,
    create_fingerprint_eq_parts, hrates, hht, houi]

/-- Witness for C6: two concrete frames with different source addresses
(one randomized, one an Apple OUI) and different SSIDs but identical
capability sets get the same fingerprint. -/
theorem fingerprint_witness_distinct_addresses :
    (wifi_promiscuous_rx frame6a).map (fun r => r.fingerprint.ie_signature)
      = (wifi_promiscuous_rx frame6b).map (fun r => r.fingerprint.ie_signature) := by
  have h1 : wifi_promiscuous_rx frame6a = some rec6a := by decide
  have h2 : wifi_promiscuous_rx frame6b = some rec6b := by decide
  rw [h1, h2]
  exact congrArg some
    (fingerprint_depends_only_on_capabilities frame6a frame6b rec6a rec6b h1 h2
      (by decide) (by decide) (by decide))
